import Mathlib

/-!
Verification of the deepks-kit iterate entry point (`deepqc/iterate/main.py`)
and trainer (`deepqc/train/train.py`) against their natural-language
specification.  Python functions are shallowly embedded as Lean functions;
fallible Python code (code that may raise) is embedded in `Except`; the
filesystem is an abstract existence predicate; torch tensors are
finite-dimensional real arrays, and the torch autograd/optimizer machinery
and the data readers are abstracted as explicit function parameters.
-/

namespace Iterate

/-- Errors that `make_iterate` may raise while resolving the configuration,
e.g. `FileNotFoundError` when a required system or argument file is absent
from the share folder. -/
inductive IterError where
  | fileNotFound (path : String) : IterError
  | other (msg : String) : IterError
deriving DecidableEq, Repr

/-- The workflow object returned by `make_iterate`: the entry point consults
only its `record_file` attribute (`$workdir/RECORD`). -/
structure IterWorkflow where
  record_file : String
deriving DecidableEq, Repr

/-- Which of the two workflow methods the entry point invokes. -/
inductive IterAction where
  | run : IterAction
  | restart : IterAction
deriving DecidableEq, Repr

/-- `main` from `deepqc/iterate/main.py`: call `make_iterate` (its outcome,
success or raised error, is the `mk` argument), then consult
`os.path.exists(iterate.record_file)` (the abstract filesystem `fs`) and
invoke `iterate.restart()` if the record file exists, `iterate.run()`
otherwise.  The result records which workflow and which action was invoked;
a raised configuration error propagates and no action is invoked. -/
def main (mk : Except IterError IterWorkflow) (fs : String → Bool) :
    Except IterError (IterWorkflow × IterAction) :=
  match mk with
  | .error e => .error e
  | .ok iterate =>
      if fs iterate.record_file then .ok (iterate, .restart)
      else .ok (iterate, .run)

end Iterate

namespace Train

/-- Errors the trainer may raise before or during the epoch loop. -/
inductive TrainError where
  | zeroDivision : TrainError
deriving DecidableEq, Repr

/-- Python integer division `a // b`, which raises `ZeroDivisionError`
when `b = 0`. -/
def pyIntDiv (a b : ℕ) : Except TrainError ℕ :=
  if b = 0 then .error .zeroDivision else .ok (a / b)

noncomputable section

/-- Python true division `a / b` with an integer divisor, which raises
`ZeroDivisionError` when `b = 0`. -/
def pyDivNat (a : ℝ) (b : ℕ) : Except TrainError ℝ :=
  if b = 0 then .error .zeroDivision else .ok (a / (b : ℝ))

/-- The back-solve of the decay rate in `train`
(`deepqc/train/train.py` line 72): when `stop_lr` is given,
`decay_rate = (stop_lr / start_lr) ** (1 / (n_epoch // decay_steps))`,
with Python `**` on a real exponent read as the real power function. -/
def resetDecayRate (stop_lr start_lr : ℝ) (n_epoch decay_steps : ℕ) :
    Except TrainError ℝ :=
  match pyIntDiv n_epoch decay_steps with
  | .error err => .error err
  | .ok k =>
    match pyDivNat 1 k with
    | .error err => .error err
    | .ok e => .ok ((stop_lr / start_lr) ^ e)

/-- The learning rate maintained by `torch.optim.lr_scheduler.StepLR`
(step size `decay_steps`, factor `decay_rate`) after `e` calls to
`scheduler.step()`: `start_lr * decay_rate ^ (e // decay_steps)`. -/
def lrAt (start_lr decay_rate : ℝ) (decay_steps e : ℕ) : ℝ :=
  start_lr * decay_rate ^ (e / decay_steps)

/-- `nn.MSELoss()` applied to the scalar energy prediction of one frame. -/
def mseScalar (a b : ℝ) : ℝ := (a - b) ^ 2

/-- `nn.MSELoss()` applied to two `nb × nx` force tensors: the mean of the
elementwise squared differences. -/
def mseForce {nb nx : ℕ} (f g : Fin nb → Fin nx → ℝ) : ℝ :=
  (∑ b, ∑ x, (f b x - g b x) ^ 2) / ((nb : ℝ) * (nx : ℝ))

/-- A torch model of the energy: `forward` is `model(eig)` on a descriptor
tensor of shape `na × np`, and `grad` is the gradient of the (sum of the)
output with respect to that input as computed by `torch.autograd.grad`
with `grad_outputs = ones`. -/
structure TorchModel (na np : ℕ) where
  forward : (Fin na → Fin np → ℝ) → ℝ
  grad : (Fin na → Fin np → ℝ) → Fin na → Fin np → ℝ

/-- `calc_force` from `deepqc/train/train.py`: the autograd call
`torch.autograd.grad(ene, eig, grad_outputs=ones, ...)` yields the gradient
`gev` of the predicted energy with respect to `eig` (here `model.grad eig`,
since `ene = model(eig)`), and the force is
`- torch.einsum("...bxap,...ap->...bx", gvx, gev)`. -/
def calc_force {na np nb nx : ℕ} (model : TorchModel na np)
    (eig : Fin na → Fin np → ℝ)
    (gvx : Fin nb → Fin nx → Fin na → Fin np → ℝ) : Fin nb → Fin nx → ℝ :=
  let gev := model.grad eig
  fun b x => -(∑ a, ∑ p, gvx b x a p * gev a p)

/-- One labeled sample as unpacked by the evaluator:
`e_label, eig, *force_sample = sample` with `force_sample = [f_label, gvx]`
(the force fields are consulted only when `force_factor > 0`). -/
structure EvalSample (na np nb nx : ℕ) where
  e_label : ℝ
  eig : Fin na → Fin np → ℝ
  f_label : Fin nb → Fin nx → ℝ
  gvx : Fin nb → Fin nx → Fin na → Fin np → ℝ

/-- `make_evaluator` from `deepqc/train/train.py` with `loss_fn = MSELoss`:
the returned closure computes `e_pred = model(eig)`,
`loss = MSE(e_pred, e_label)`, and when `force_factor > 0` adds
`force_factor * MSE(calc_force(e_pred, eig, gvx), f_label)`. -/
def make_evaluator {na np nb nx : ℕ} (force_factor : ℝ)
    (model : TorchModel na np) (sample : EvalSample na np nb nx) : ℝ :=
  let e_pred := model.forward sample.eig
  let loss := mseScalar e_pred sample.e_label
  if 0 < force_factor then
    loss + force_factor * mseForce (calc_force model sample.eig sample.gvx) sample.f_label
  else loss

/-- A model as seen by `preprocess`: its input normalization arrays (of an
abstract array type `A`) and its prefit linear layer (weights of an abstract
type `W`). -/
structure PModel (A W : Type) where
  input_shift : A
  input_scale : A
  prefit_w : W
  prefit_b : W
  prefit_trainable : Bool

/-- `model.set_normalization(shift, scale)`. -/
def PModel.set_normalization {A W : Type} (m : PModel A W) (shift scale : A) :
    PModel A W :=
  { m with input_shift := shift, input_scale := scale }

/-- `model.set_prefitting(weight, bias, trainable)`. -/
def PModel.set_prefitting {A W : Type} (m : PModel A W) (w b : W)
    (trainable : Bool) : PModel A W :=
  { m with prefit_w := w, prefit_b := b, prefit_trainable := trainable }

/-- The reader interface used by `preprocess`: `compute_data_stat()` yields
fixed dataset statistics `(davg, dstd)`, and
`compute_prefitting(shift, scale, ridge_alpha)` is a deterministic function
of its arguments. -/
structure PReader (A W : Type) where
  data_stat : A × A
  prefitting : A → A → ℝ → W × W

/-- The numpy operations `preprocess` applies to the statistics arrays:
elementwise `np.sqrt` and `ndarray.clip(min)`. -/
structure NpOps (A : Type) where
  sqrt : A → A
  clip : A → ℝ → A

/-- The keyword options of `preprocess`. -/
structure PreOptions where
  preshift : Bool
  prescale : Bool
  prescale_sqrt : Bool
  prescale_clip : ℝ
  prefit : Bool
  prefit_ridge : ℝ
  prefit_trainable : Bool

/-- `preprocess` from `deepqc/train/train.py`: read the model's current
shift/scale; if `preshift or prescale`, recompute them from the dataset
statistics (shift from `davg` when `preshift`; scale from `dstd` when
`prescale`, optionally square-rooted and clipped — Python truthiness of the
float `prescale_clip` is `≠ 0`) and call `set_normalization`; if `prefit`,
compute the ridge prefit from the resulting shift/scale and call
`set_prefitting`.  The mutated model is returned explicitly. -/
def preprocess {A W : Type} (npops : NpOps A) (model : PModel A W)
    (g_reader : PReader A W) (o : PreOptions) : PModel A W :=
  let shift0 := model.input_shift
  let scale0 := model.input_scale
  let shift := if o.preshift then g_reader.data_stat.1 else shift0
  let scale :=
    if o.prescale then
      let s1 := g_reader.data_stat.2
      let s2 := if o.prescale_sqrt then npops.sqrt s1 else s1
      if o.prescale_clip = 0 then s2 else npops.clip s2 o.prescale_clip
    else scale0
  let m1 :=
    if o.preshift ∨ o.prescale then model.set_normalization shift scale
    else model
  if o.prefit then
    let wb := g_reader.prefitting shift scale o.prefit_ridge
    m1.set_prefitting wb.1 wb.2 o.prefit_trainable
  else m1

/-- The data reader as consumed by `train`: iterating the reader
(`for sample in g_reader`) yields `batches` in order, and
`sample_all_batch()` yields `all_batches`. -/
structure GReader (S : Type) where
  batches : List S
  all_batches : List S

/-- The torch machinery abstracted over an opaque model-state type `M`:
`evalLoss m s` is `evaluator(model, sample).item()` at model state `m`, and
`optStep lr m s` is the model state after
`zero_grad(); loss.backward(); optimizer.step()` on sample `s` at learning
rate `lr` (the Adam moment state is folded into `M`). -/
structure TorchOps (M S : Type) where
  evalLoss : M → S → ℝ
  optStep : ℝ → M → S → M

/-- The scalar hyperparameters of `train` (the keyword arguments of the
Python function; `device` is abstracted away and `force_factor` and
`weight_decay` enter only through the abstracted `TorchOps`). -/
structure TrainCfg where
  n_epoch : ℕ
  start_lr : ℝ
  decay_steps : ℕ
  decay_rate : ℝ
  stop_lr : Option ℝ
  display_epoch : ℕ
  ckpt_file : String

/-- One printed report line: epoch index, mean train loss, test loss, and
the scheduler's current learning rate. -/
structure EpochReport where
  epoch : ℕ
  trn_loss : ℝ
  tst_loss : ℝ
  lr : ℝ

/-- The observable outcome of a successful `train` call: the value the
Python function returns (`returned`), the final model state, the epoch-0
report printed before the loop, the report lines printed inside the loop,
and the checkpoints written by `model.save(ckpt_file)` tagged with their
epoch. -/
structure TrainOutcome (M : Type) where
  returned : Option M
  final_model : M
  init_report : EpochReport
  reports : List EpochReport
  ckpts : List (ℕ × M)

/-- `np.mean` of a list of loss values. -/
def mean (l : List ℝ) : ℝ := l.sum / (l.length : ℝ)

/-- The inner batch loop of one epoch: for each sample in order, record
`loss.item()` at the current model state, then apply the optimizer step.
Returns the final model state and the recorded `loss_list`. -/
def runBatches {M S : Type} (ops : TorchOps M S) (lr : ℝ) :
    M → List S → M × List ℝ
  | m, [] => (m, [])
  | m, s :: rest =>
      let l := ops.evalLoss m s
      let r := runBatches ops lr (ops.optStep lr m s) rest
      (r.1, l :: r.2)

/-- `np.mean([evaluator(model, batch).item() for batch in reader.sample_all_batch()])`. -/
def evalReader {M S : Type} (ops : TorchOps M S) (m : M) (r : GReader S) : ℝ :=
  mean (r.all_batches.map (ops.evalLoss m))

/-- The mutable state threaded through the epoch loop. -/
structure LoopState (M : Type) where
  model : M
  reports : List EpochReport
  ckpts : List (ℕ × M)

/-- The body of one iteration of `for epoch in range(1, n_epoch+1)`:
run the batch loop at the scheduler's current rate, step the scheduler, and
when `epoch % display_epoch == 0` (raising `ZeroDivisionError` when
`display_epoch = 0`) record the report line and, if `ckpt_file` is truthy
(a non-empty string), the checkpoint. -/
def epochBody {M S : Type} (ops : TorchOps M S) (g tr : GReader S)
    (cfg : TrainCfg) (rate : ℝ) (epoch : ℕ) (st : LoopState M) :
    Except TrainError (LoopState M) :=
  let r := runBatches ops (lrAt cfg.start_lr rate cfg.decay_steps (epoch - 1)) st.model g.batches
  if cfg.display_epoch = 0 then .error .zeroDivision
  else if epoch % cfg.display_epoch = 0 then
    let rep : EpochReport :=
      ⟨epoch, mean r.2, evalReader ops r.1 tr, lrAt cfg.start_lr rate cfg.decay_steps epoch⟩
    .ok ⟨r.1, st.reports ++ [rep],
         if cfg.ckpt_file = "" then st.ckpts else st.ckpts ++ [(epoch, r.1)]⟩
  else .ok ⟨r.1, st.reports, st.ckpts⟩

/-- The epoch loop of `train`, over the list of epoch indices. -/
def epochLoop {M S : Type} (ops : TorchOps M S) (g tr : GReader S)
    (cfg : TrainCfg) (rate : ℝ) :
    List ℕ → LoopState M → Except TrainError (LoopState M)
  | [], st => .ok st
  | e :: es, st =>
      match epochBody ops g tr cfg rate e st with
      | .error err => .error err
      | .ok st2 => epochLoop ops g tr cfg rate es st2

/-- `train` from `deepqc/train/train.py`: substitute `g_reader` for a `None`
`test_reader`; when `stop_lr` is given, back-solve the decay rate (possibly
raising `ZeroDivisionError`); print the epoch-0 report; run the epoch loop
for epochs `1..n_epoch`.  The Python function body ends after the loop with
no `return` statement, so the returned value is `none`. -/
def train {M S : Type} (ops : TorchOps M S) (model : M) (g_reader : GReader S)
    (cfg : TrainCfg) (test_reader : Option (GReader S)) :
    Except TrainError (TrainOutcome M) :=
  let tr := test_reader.getD g_reader
  let rateE : Except TrainError ℝ :=
    match cfg.stop_lr with
    | none => .ok cfg.decay_rate
    | some sl => resetDecayRate sl cfg.start_lr cfg.n_epoch cfg.decay_steps
  match rateE with
  | .error err => .error err
  | .ok rate =>
    let trn0 := evalReader ops model g_reader
    let tst0 := evalReader ops model tr
    match epochLoop ops g_reader tr cfg rate (List.range' 1 cfg.n_epoch)
      ⟨model, [], []⟩ with
    | .error err => .error err
    | .ok st =>
      .ok ⟨none, st.model, ⟨0, trn0, tst0, cfg.start_lr⟩, st.reports, st.ckpts⟩

/-- A trivial concrete torch abstraction (unit model state, unit samples,
zero loss), used to evaluate the embedding at concrete inputs. -/
def trivialOps : TorchOps Unit Unit := ⟨fun _ _ => 0, fun _ _ _ => ()⟩

/-- A concrete reader with no batches. -/
def emptyReader : GReader Unit := ⟨[], []⟩

/-- A small concrete configuration: 2 epochs, reporting every epoch,
default checkpoint file, no `stop_lr`. -/
def smallCfg : TrainCfg := ⟨2, 1, 100, 1, none, 1, "model.pth"⟩

/-- A concrete one-atom, one-projection energy model: the energy is the
single descriptor entry and its autograd gradient is the constant 1. -/
def demoModel : TorchModel 1 1 := ⟨fun e => e 0 0, fun _ _ _ => 1⟩

/-- A concrete sample for the one-atom, one-projection model. -/
def demoSample : EvalSample 1 1 1 1 :=
  ⟨0, fun _ _ => 1, fun _ _ => 0, fun _ _ _ _ => 1⟩

end

end Train

/-!
## Theorems
-/

/-- C1: for every configuration, `main` first builds the iterate workflow and
then invokes `restart` iff the record file exists on disk and `run` iff it
does not; exactly one of the two is invoked per call. -/
theorem main_branches_on_record (mk : Except Iterate.IterError Iterate.IterWorkflow)
    (fs : String → Bool) (it : Iterate.IterWorkflow) (h : mk = .ok it) :
    (Iterate.main mk fs = .ok (it, .restart) ↔ fs it.record_file = true) ∧
    (Iterate.main mk fs = .ok (it, .run) ↔ fs it.record_file = false) ∧
    (Iterate.main mk fs = .ok (it, .restart) ∨ Iterate.main mk fs = .ok (it, .run)) ∧
    ¬(Iterate.main mk fs = .ok (it, .restart) ∧ Iterate.main mk fs = .ok (it, .run)) := by
  subst h
  cases hfs : fs it.record_file <;> simp [Iterate.main, hfs]

/-- Witness for C1 at a concrete workflow and a filesystem on which the
record file exists. -/
theorem main_branches_on_record_witness :
    (Iterate.main (.ok ⟨"./RECORD"⟩) (fun _ => true) = .ok (⟨"./RECORD"⟩, .restart) ↔
      (fun _ : String => true) "./RECORD" = true) ∧
    (Iterate.main (.ok ⟨"./RECORD"⟩) (fun _ => true) = .ok (⟨"./RECORD"⟩, .run) ↔
      (fun _ : String => true) "./RECORD" = false) ∧
    (Iterate.main (.ok ⟨"./RECORD"⟩) (fun _ => true) = .ok (⟨"./RECORD"⟩, .restart) ∨
      Iterate.main (.ok ⟨"./RECORD"⟩) (fun _ => true) = .ok (⟨"./RECORD"⟩, .run)) ∧
    ¬(Iterate.main (.ok ⟨"./RECORD"⟩) (fun _ => true) = .ok (⟨"./RECORD"⟩, .restart) ∧
      Iterate.main (.ok ⟨"./RECORD"⟩) (fun _ => true) = .ok (⟨"./RECORD"⟩, .run)) :=
  main_branches_on_record (.ok ⟨"./RECORD"⟩) (fun _ => true) ⟨"./RECORD"⟩ rfl

/-- C7: if `make_iterate` raises a configuration-resolution error, `main`
propagates it and never invokes `run` or `restart` on any workflow. -/
theorem main_propagates_config_error
    (mk : Except Iterate.IterError Iterate.IterWorkflow) (fs : String → Bool)
    (e : Iterate.IterError) (h : mk = .error e) :
    Iterate.main mk fs = .error e ∧
    ∀ (w : Iterate.IterWorkflow) (a : Iterate.IterAction),
      Iterate.main mk fs ≠ .ok (w, a) := by
  subst h
  refine ⟨rfl, ?_⟩
  intro w a
  simp [Iterate.main]

/-- Witness for C7 at a concrete missing-file error. -/
theorem main_propagates_config_error_witness :
    Iterate.main (.error (.fileNotFound "share/scf_input.yaml")) (fun _ => false) =
      .error (.fileNotFound "share/scf_input.yaml") ∧
    ∀ (w : Iterate.IterWorkflow) (a : Iterate.IterAction),
      Iterate.main (.error (.fileNotFound "share/scf_input.yaml")) (fun _ => false) ≠
        .ok (w, a) :=
  main_propagates_config_error _ (fun _ => false) (.fileNotFound "share/scf_input.yaml") rfl

/-- C9: with `stop_lr` given and `n_epoch < decay_steps`, the integer
division `n_epoch // decay_steps` is `0` and the decay-rate back-solve
raises `ZeroDivisionError` before any epoch runs. -/
theorem stop_lr_zero_division (stop_lr start_lr : ℝ) (n_epoch decay_steps : ℕ)
    (h : n_epoch < decay_steps) :
    Train.resetDecayRate stop_lr start_lr n_epoch decay_steps =
      .error .zeroDivision := by
  have hd0 : decay_steps ≠ 0 := by omega
  have hk : n_epoch / decay_steps = 0 := Nat.div_eq_of_lt h
  simp [Train.resetDecayRate, Train.pyIntDiv, Train.pyDivNat, hd0, hk]

/-- Witness for C9 at `n_epoch = 30 < decay_steps = 100`. -/
theorem stop_lr_zero_division_witness :
    (30 : ℕ) < 100 ∧
    Train.resetDecayRate 1 2 30 100 = .error .zeroDivision :=
  ⟨by decide, stop_lr_zero_division 1 2 30 100 (by decide)⟩

/-- C3: when `stop_lr` is given, the back-solved decay rate satisfies
`start_lr * decay_rate ^ (n_epoch // decay_steps) = stop_lr`, so the step
scheduler's learning rate after `n_epoch` epochs equals `stop_lr`. -/
theorem stop_lr_backsolve (stop_lr start_lr : ℝ) (n_epoch decay_steps : ℕ)
    (hstart : 0 < start_lr) (hstop : 0 ≤ stop_lr)
    (hd : 0 < decay_steps) (hnd : decay_steps ≤ n_epoch) :
    ∃ r, Train.resetDecayRate stop_lr start_lr n_epoch decay_steps = .ok r ∧
      start_lr * r ^ (n_epoch / decay_steps) = stop_lr ∧
      Train.lrAt start_lr r decay_steps n_epoch = stop_lr := by
  have hd0 : decay_steps ≠ 0 := hd.ne'
  have hk : 0 < n_epoch / decay_steps := Nat.div_pos hnd hd
  have hk0 : n_epoch / decay_steps ≠ 0 := hk.ne'
  have hkR : ((n_epoch / decay_steps : ℕ) : ℝ) ≠ 0 := Nat.cast_ne_zero.mpr hk0
  have hbase : (0 : ℝ) ≤ stop_lr / start_lr := div_nonneg hstop hstart.le
  have h2 : start_lr *
      ((stop_lr / start_lr) ^ ((1 : ℝ) / ((n_epoch / decay_steps : ℕ) : ℝ))) ^
        (n_epoch / decay_steps) = stop_lr := by
    rw [← Real.rpow_natCast ((stop_lr / start_lr) ^
          ((1 : ℝ) / ((n_epoch / decay_steps : ℕ) : ℝ))) (n_epoch / decay_steps),
        ← Real.rpow_mul hbase, one_div, inv_mul_cancel₀ hkR, Real.rpow_one,
        mul_comm]
    exact div_mul_cancel₀ stop_lr hstart.ne'
  refine ⟨(stop_lr / start_lr) ^ ((1 : ℝ) / ((n_epoch / decay_steps : ℕ) : ℝ)),
    ?_, h2, ?_⟩
  · simp [Train.resetDecayRate, Train.pyIntDiv, Train.pyDivNat, hd0, hk0]
  · simpa [Train.lrAt] using h2

/-- Witness for C3 at `start_lr = 1`, `stop_lr = 4`, `n_epoch = 200`,
`decay_steps = 100`. -/
theorem stop_lr_backsolve_witness :
    (0 : ℝ) < 1 ∧ (0 : ℝ) ≤ 4 ∧ (0 : ℕ) < 100 ∧ (100 : ℕ) ≤ 200 ∧
    ∃ r, Train.resetDecayRate 4 1 200 100 = .ok r ∧
      1 * r ^ (200 / 100) = 4 ∧ Train.lrAt 1 r 100 200 = 4 :=
  ⟨by norm_num, by norm_num, by norm_num, by norm_num,
    stop_lr_backsolve 4 1 200 100 (by norm_num) (by norm_num) (by norm_num)
      (by norm_num)⟩

/-- One pass of the epoch body always succeeds when `display_epoch ≠ 0`, and
appends the epoch to the report list exactly when `epoch % display_epoch = 0`
and to the checkpoint list exactly when additionally `ckpt_file` is
non-empty. -/
theorem epochBody_ok {M S : Type} (ops : Train.TorchOps M S) (g tr : Train.GReader S)
    (cfg : Train.TrainCfg) (rate : ℝ) (hd : cfg.display_epoch ≠ 0)
    (e : ℕ) (st : Train.LoopState M) :
    ∃ st1, Train.epochBody ops g tr cfg rate e st = .ok st1 ∧
      st1.reports.map Train.EpochReport.epoch =
        st.reports.map Train.EpochReport.epoch ++
          (if e % cfg.display_epoch == 0 then [e] else []) ∧
      st1.ckpts.map Prod.fst =
        st.ckpts.map Prod.fst ++
          (if cfg.ckpt_file = "" then []
           else if e % cfg.display_epoch == 0 then [e] else []) := by
  simp only [Train.epochBody]
  rw [if_neg hd]
  by_cases hmod : e % cfg.display_epoch = 0
  · rw [if_pos hmod]
    by_cases hck : cfg.ckpt_file = ""
    · rw [if_pos hck]
      exact ⟨_, rfl, by simp [hmod], by simp [hck]⟩
    · rw [if_neg hck]
      exact ⟨_, rfl, by simp [hmod], by simp [hck, hmod]⟩
  · rw [if_neg hmod]
    exact ⟨_, rfl, by simp [hmod], by
      by_cases hck : cfg.ckpt_file = "" <;> simp [hck, hmod]⟩

/-- The epoch loop always succeeds when `display_epoch ≠ 0`; the epochs of
the appended reports are exactly those epochs in the list that are multiples
of `display_epoch`, and likewise for checkpoints when `ckpt_file` is
non-empty. -/
theorem epochLoop_spec {M S : Type} (ops : Train.TorchOps M S) (g tr : Train.GReader S)
    (cfg : Train.TrainCfg) (rate : ℝ) (hd : cfg.display_epoch ≠ 0)
    (es : List ℕ) :
    ∀ st : Train.LoopState M,
      ∃ st2, Train.epochLoop ops g tr cfg rate es st = .ok st2 ∧
        st2.reports.map Train.EpochReport.epoch =
          st.reports.map Train.EpochReport.epoch ++
            es.filter (fun e => e % cfg.display_epoch == 0) ∧
        st2.ckpts.map Prod.fst =
          st.ckpts.map Prod.fst ++
            (if cfg.ckpt_file = "" then []
             else es.filter (fun e => e % cfg.display_epoch == 0)) := by
  induction es with
  | nil =>
    intro st
    exact ⟨st, rfl, by simp, by simp⟩
  | cons e es ih =>
    intro st
    obtain ⟨st1, hb, hr1, hc1⟩ := epochBody_ok ops g tr cfg rate hd e st
    obtain ⟨st2, hl, hr2, hc2⟩ := ih st1
    refine ⟨st2, ?_, ?_, ?_⟩
    · simp only [Train.epochLoop]
      rw [hb]
      exact hl
    · rw [hr2, hr1, List.filter_cons]
      by_cases hmod : e % cfg.display_epoch = 0 <;> simp [hmod]
    · rw [hc2, hc1, List.filter_cons]
      by_cases hck : cfg.ckpt_file = "" <;>
        by_cases hmod : e % cfg.display_epoch = 0 <;> simp [hck, hmod]

/-- C5: during `train`, an epoch `e` in `1..n_epoch` gets its mean train
loss and test loss evaluated and reported iff `e` is a multiple of
`display_epoch`, and a checkpoint is persisted at `e` iff additionally
`ckpt_file` is non-empty; in particular if `n_epoch < display_epoch` no
checkpoint is ever written during the epoch loop. -/
theorem train_reports_and_ckpts {M S : Type} (ops : Train.TorchOps M S)
    (model : M) (g : Train.GReader S) (cfg : Train.TrainCfg)
    (test_reader : Option (Train.GReader S))
    (hs : cfg.stop_lr = none) (hd : cfg.display_epoch ≠ 0) :
    ∃ out, Train.train ops model g cfg test_reader = .ok out ∧
      (∀ e, e ∈ out.reports.map Train.EpochReport.epoch ↔
        1 ≤ e ∧ e ≤ cfg.n_epoch ∧ e % cfg.display_epoch = 0) ∧
      (∀ e, e ∈ out.ckpts.map Prod.fst ↔
        (1 ≤ e ∧ e ≤ cfg.n_epoch ∧ e % cfg.display_epoch = 0 ∧
          cfg.ckpt_file ≠ "")) ∧
      (cfg.n_epoch < cfg.display_epoch → out.ckpts = []) := by
  obtain ⟨st2, hl, hr, hc⟩ := epochLoop_spec ops g (test_reader.getD g) cfg
    cfg.decay_rate hd (List.range' 1 cfg.n_epoch) ⟨model, [], []⟩
  simp only [List.map_nil, List.nil_append] at hr hc
  refine ⟨⟨none, st2.model,
    ⟨0, Train.evalReader ops model g,
      Train.evalReader ops model (test_reader.getD g), cfg.start_lr⟩,
    st2.reports, st2.ckpts⟩, ?_, ?_, ?_, ?_⟩
  · simp only [Train.train, hs]
    rw [hl]
  · intro e
    rw [hr]
    simp only [List.mem_filter, List.mem_range'_1, beq_iff_eq]
    constructor
    · rintro ⟨⟨h1, h2⟩, h3⟩
      exact ⟨h1, by omega, h3⟩
    · rintro ⟨h1, h2, h3⟩
      exact ⟨⟨h1, by omega⟩, h3⟩
  · intro e
    rw [hc]
    by_cases hck : cfg.ckpt_file = ""
    · simp [hck]
    · simp only [if_neg hck, List.mem_filter, List.mem_range'_1, beq_iff_eq]
      constructor
      · rintro ⟨⟨h1, h2⟩, h3⟩
        exact ⟨h1, by omega, h3, hck⟩
      · rintro ⟨h1, h2, h3, -⟩
        exact ⟨⟨h1, by omega⟩, h3⟩
  · intro hlt
    have hfil : (List.range' 1 cfg.n_epoch).filter
        (fun e => e % cfg.display_epoch == 0) = [] := by
      refine List.filter_eq_nil_iff.mpr ?_
      intro a ha
      rw [List.mem_range'_1] at ha
      have : a % cfg.display_epoch = a := Nat.mod_eq_of_lt (by omega)
      simp [this]
      omega
    rw [hfil] at hc
    have : st2.ckpts.map Prod.fst = [] := by
      rw [hc]
      by_cases hck : cfg.ckpt_file = "" <;> simp [hck]
    exact List.map_eq_nil_iff.mp this

/-- Witness for C5 at the small concrete configuration (2 epochs, report
every epoch, non-empty checkpoint file). -/
theorem train_reports_and_ckpts_witness :
    Train.smallCfg.stop_lr = none ∧ Train.smallCfg.display_epoch ≠ 0 ∧
    (∃ out, Train.train Train.trivialOps () Train.emptyReader Train.smallCfg
        none = .ok out ∧
      (∀ e, e ∈ out.reports.map Train.EpochReport.epoch ↔
        1 ≤ e ∧ e ≤ Train.smallCfg.n_epoch ∧
          e % Train.smallCfg.display_epoch = 0) ∧
      (∀ e, e ∈ out.ckpts.map Prod.fst ↔
        (1 ≤ e ∧ e ≤ Train.smallCfg.n_epoch ∧
          e % Train.smallCfg.display_epoch = 0 ∧
          Train.smallCfg.ckpt_file ≠ "")) ∧
      (Train.smallCfg.n_epoch < Train.smallCfg.display_epoch →
        out.ckpts = [])) :=
  ⟨rfl, by decide,
    train_reports_and_ckpts Train.trivialOps () Train.emptyReader
      Train.smallCfg none rfl (by decide)⟩

/-- C10: when `test_reader` is `None`, `train` substitutes the training
reader for the test reader, so the run is identical to one passed the
training reader explicitly, and the reported epoch-0 test loss coincides
with the epoch-0 train loss (both evaluated on the training data). -/
theorem test_reader_defaults_to_train_reader {M S : Type}
    (ops : Train.TorchOps M S) (model : M) (g : Train.GReader S)
    (cfg : Train.TrainCfg)
    (hs : cfg.stop_lr = none) (hd : cfg.display_epoch ≠ 0) :
    Train.train ops model g cfg none = Train.train ops model g cfg (some g) ∧
    ∃ out, Train.train ops model g cfg none = .ok out ∧
      out.init_report.tst_loss = out.init_report.trn_loss := by
  refine ⟨rfl, ?_⟩
  obtain ⟨st2, hl, -, -⟩ := epochLoop_spec ops g g cfg cfg.decay_rate hd
    (List.range' 1 cfg.n_epoch) ⟨model, [], []⟩
  refine ⟨⟨none, st2.model,
    ⟨0, Train.evalReader ops model g, Train.evalReader ops model g,
      cfg.start_lr⟩, st2.reports, st2.ckpts⟩, ?_, rfl⟩
  simp only [Train.train, hs, Option.getD_none]
  rw [hl]

/-- Witness for C10 at the small concrete configuration. -/
theorem test_reader_defaults_to_train_reader_witness :
    Train.smallCfg.stop_lr = none ∧ Train.smallCfg.display_epoch ≠ 0 ∧
    (Train.train Train.trivialOps () Train.emptyReader Train.smallCfg none =
      Train.train Train.trivialOps () Train.emptyReader Train.smallCfg
        (some Train.emptyReader) ∧
    ∃ out, Train.train Train.trivialOps () Train.emptyReader Train.smallCfg
        none = .ok out ∧
      out.init_report.tst_loss = out.init_report.trn_loss) :=
  ⟨rfl, by decide,
    test_reader_defaults_to_train_reader Train.trivialOps ()
      Train.emptyReader Train.smallCfg rfl (by decide)⟩

/-- C2 (divergence witness): the Python `train` function body ends after the
epoch loop with no `return` statement, so a completed call returns `None`,
not the trained model object: at a concrete configuration that completes its
epochs, the returned value is `none`. -/
theorem train_returns_none :
    (Train.train Train.trivialOps () Train.emptyReader Train.smallCfg
        none).map Train.TrainOutcome.returned = .ok none := rfl

/-- C4: the evaluator returns exactly the energy MSE when
`force_factor = 0`, and the energy MSE plus `force_factor` times the force
MSE when `force_factor > 0`, where the predicted force is the negated
contraction of `gvx` with the gradient of the predicted energy with respect
to `eig`. -/
theorem evaluator_loss_formula {na np nb nx : ℕ} (force_factor : ℝ)
    (model : Train.TorchModel na np) (sample : Train.EvalSample na np nb nx) :
    (force_factor = 0 →
      Train.make_evaluator force_factor model sample =
        Train.mseScalar (model.forward sample.eig) sample.e_label) ∧
    (0 < force_factor →
      Train.make_evaluator force_factor model sample =
        Train.mseScalar (model.forward sample.eig) sample.e_label +
          force_factor *
            Train.mseForce
              (fun b x =>
                -(∑ a, ∑ p, sample.gvx b x a p * model.grad sample.eig a p))
              sample.f_label) := by
  constructor
  · intro h0
    subst h0
    simp [Train.make_evaluator]
  · intro hpos
    simp [Train.make_evaluator, hpos, Train.calc_force]

/-- Witness for C4 at the one-atom, one-projection model and sample, with
`force_factor = 0` and `force_factor = 1`. -/
theorem evaluator_loss_formula_witness :
    ((0 : ℝ) = 0 ∧
      Train.make_evaluator 0 Train.demoModel Train.demoSample =
        Train.mseScalar (Train.demoModel.forward Train.demoSample.eig)
          Train.demoSample.e_label) ∧
    ((0 : ℝ) < 1 ∧
      Train.make_evaluator 1 Train.demoModel Train.demoSample =
        Train.mseScalar (Train.demoModel.forward Train.demoSample.eig)
          Train.demoSample.e_label +
          1 * Train.mseForce
            (fun b x => -(∑ a, ∑ p, Train.demoSample.gvx b x a p *
              Train.demoModel.grad Train.demoSample.eig a p))
            Train.demoSample.f_label) :=
  ⟨⟨rfl, (evaluator_loss_formula 0 Train.demoModel Train.demoSample).1 rfl⟩,
   ⟨by norm_num,
    (evaluator_loss_formula 1 Train.demoModel Train.demoSample).2
      (by norm_num)⟩⟩

/-- C6: `preprocess` is idempotent given fixed dataset statistics: applying
it twice with the same reader and options leaves the model in the same
state as applying it once. -/
theorem preprocess_idempotent {A W : Type} (npops : Train.NpOps A)
    (model : Train.PModel A W) (g_reader : Train.PReader A W)
    (o : Train.PreOptions) :
    Train.preprocess npops (Train.preprocess npops model g_reader o)
        g_reader o =
      Train.preprocess npops model g_reader o := by
  unfold Train.preprocess
  rcases o with ⟨ps, psc, pss, pcl, pf, pr, pt⟩
  cases ps <;> cases psc <;> cases pf <;>
    simp [Train.PModel.set_normalization, Train.PModel.set_prefitting]
